import Mathlib

/-!
Shallow embedding of aptsources_cleanup/util/functools.py: the function
composition helper comp and the lazy instantiation proxy LazyInstance,
together with theorems checking the natural-language specification.

The module under verification is dynamically typed Python.  We embed the
fragment of the Python value universe the module manipulates as the
inductive type PyVal, with callables defunctionalised to numeric codes
interpreted by a call environment (CallEnv).  Exceptions are modelled by
the Except monad over PyError.  Mutation of the proxy's fields is modelled
by explicit state passing: each stateful operation returns its result, the
successor state and the number of times the proxy's factory was invoked
during the operation.
-/

set_option autoImplicit false

namespace AptSourcesCleanup

/-- Python exceptions raised by the embedded code: AssertionError (from an
assert statement), TypeError (with its message) and AttributeError (with
the missing attribute name). -/
inductive PyError : Type where
  | assertionError : PyError
  | typeError (msg : String) : PyError
  | attributeError (attrName : String) : PyError
deriving DecidableEq

/-- The fragment of the Python value universe used by the module: None,
ints, strings, tuples, callables (defunctionalised to a numeric code
interpreted by a CallEnv), class instances (class name plus attribute
table) and classes (name plus attribute table).  Instance attribute lookup
in Python falls back to the class; the model inlines the relevant
attributes into each value's own table. -/
inductive PyVal : Type where
  | none : PyVal
  | int (n : Int) : PyVal
  | str (s : String) : PyVal
  | tupleV (elems : List PyVal) : PyVal
  | callableV (id : Nat) : PyVal
  | objV (cls : String) (attrs : List (String × PyVal)) : PyVal
  | typeV (tname : String) (attrs : List (String × PyVal)) : PyVal

/-- Python "x is None". -/
def PyVal.isNone : PyVal → Bool
  | .none => true
  | _ => false

/-- Python callable(x): function objects and classes are callable. -/
def PyVal.callable : PyVal → Bool
  | .callableV _ => true
  | .typeV _ _ => true
  | _ => false

/-- Python isinstance(x, TypesType): is the value a class object? -/
def isTypesType : PyVal → Bool
  | .typeV _ _ => true
  | _ => false

/-- The (model) class of a value, used by isinstance and error messages. -/
def classOf : PyVal → String
  | .none => "NoneType"
  | .int _ => "int"
  | .str _ => "str"
  | .tupleV _ => "tuple"
  | .callableV _ => "function"
  | .objV cls _ => cls
  | .typeV _ _ => "type"

/-- Python isinstance(v, t) for a class object t, by nominal class-name
comparison (no claim exercises subclassing). -/
def isinstance (v : PyVal) (t : PyVal) : Bool :=
  match t with
  | .typeV tname _ => classOf v == tname
  | _ => false

/-- Attribute table of a value: instances and classes carry attributes in
this model; other values have none. -/
def lookupAttr : PyVal → String → Option PyVal
  | .objV _ attrs, s => attrs.lookup s
  | .typeV _ attrs, s => attrs.lookup s
  | _, _ => Option.none

/-- Python getattr(obj, name): the name must be a string (else TypeError,
as getattr raises for non-string names); a missing attribute raises
AttributeError. -/
def getattrVal (obj : PyVal) (name : PyVal) : Except PyError PyVal :=
  match name with
  | .str s =>
    match lookupAttr obj s with
    | some v => Except.ok v
    | Option.none => Except.error (.attributeError s)
  | _ => Except.error (.typeError "attribute name must be string")

/-- Python getattr(obj, name, None): like getattrVal but a missing
attribute yields None instead of raising AttributeError.  Other errors
(non-string name) still propagate. -/
def getattrOrNone (obj : PyVal) (name : PyVal) : Except PyError PyVal :=
  match getattrVal obj name with
  | Except.error (.attributeError _) => Except.ok PyVal.none
  | r => r

/-- Interpretation of defunctionalised callables: code and argument list
to result. -/
def CallEnv : Type := Nat → List PyVal → Except PyError PyVal

/-- Python call f(*args): function objects are interpreted by the
environment; calling a class returns a fresh instance of that class (its
attribute lookup falling back to the class attributes, inlined); calling
anything else raises TypeError. -/
def callPy (env : CallEnv) (f : PyVal) (args : List PyVal) : Except PyError PyVal :=
  match f with
  | .callableV id => env id args
  | .typeV tname attrs => Except.ok (.objV tname attrs)
  | _ => Except.error (.typeError "object is not callable")

/-- Modelled from the spec: the operator module of this repository is not
under src/; the spec describes it as providing an identity function used
by comp for the zero-argument case.  identity(x) returns x. -/
def identity {α : Type} (x : α) : α := x

/-- An argument passed to comp: either a callable (a function from input
to result, possibly raising) or a non-callable object.  comp composes
functions of a single type in this embedding; the claims about comp
quantify over unary callables. -/
inductive Arg (α : Type) : Type where
  | fn (f : α → Except PyError α) : Arg α
  | nonCallable : Arg α

/-- Python callable(x) on a comp argument. -/
def Arg.callable {α : Type} : Arg α → Bool
  | .fn _ => true
  | .nonCallable => false

/-- Modelled from the spec: the operator module (not under src/) provides
rapply, the application combinator folded by comp.  The source folds it as
reduce(rapply, funcs, x) with the running value as accumulator, so rapply
takes the value first and the function second and applies the function to
the value; calling a non-callable raises TypeError as in Python. -/
def rapply {α : Type} (x : α) (f : Arg α) : Except PyError α :=
  match f with
  | .fn g => g x
  | .nonCallable => Except.error (.typeError "object is not callable")

/-- Embedding of comp(*funcs) from functools.py: assert all arguments are
callable (an assert statement, raising AssertionError); zero arguments
yield the identity function, one argument is returned unchanged, and two
or more yield partial(reduce, rapply, funcs), i.e. the function mapping x
to the left fold of rapply over funcs starting at x. -/
def comp {α : Type} (funcs : List (Arg α)) : Except PyError (Arg α) :=
  if funcs.all Arg.callable then
    match funcs with
    | [] => Except.ok (Arg.fn (fun x => Except.ok (identity x)))
    | [f] => Except.ok f
    | f1 :: f2 :: rest =>
      Except.ok (Arg.fn (fun x => List.foldlM rapply x (f1 :: f2 :: rest)))
  else
    Except.error .assertionError

/-- Calling the result of comp on an input: propagate a construction-time
error, otherwise apply the returned callable to x. -/
def compApply {α : Type} (funcs : List (Arg α)) (x : α) : Except PyError α :=
  match comp funcs with
  | Except.ok f => rapply x f
  | Except.error e => Except.error e

/-- The state of a LazyInstance proxy, mirroring its __slots__: the wrapped
instance (Python None before construction), the factory (Python None once
consumed), the type hint (Python None if absent or cleared) and the strict
flag.  The fields hold PyVal directly because the source tests them
against None with "is not None". -/
structure LazyInstance : Type where
  _li_instance : PyVal
  _li_factory : PyVal
  _li_type_hint : PyVal
  _li_strict : Bool

/-- Embedding of LazyInstance.__init__(factory, type_hint=None,
strict=False): stores instance=None, the factory and the strict flag; if
type_hint is None it defaults to factory when factory is a class, and a
non-None non-class type_hint raises TypeError.  A raising __init__ is
modelled as the whole construction failing. -/
def LazyInstance.init (factory : PyVal) (type_hint : PyVal) (strict : Bool) :
    Except PyError LazyInstance :=
  if type_hint.isNone then
    Except.ok ⟨PyVal.none, factory,
      (if isTypesType factory then factory else PyVal.none), strict⟩
  else if !(isTypesType type_hint) then
    Except.error (.typeError ("type_hint must be None or a type, not " ++ classOf type_hint))
  else
    Except.ok ⟨PyVal.none, factory, type_hint, strict⟩

/-- Embedding of the LazyInstance._instance property.  If the factory has
not been consumed: call it (calling a non-callable raises TypeError and
counts as zero factory invocations; a callable factory counts as one
invocation even if it raises), assign the result to the instance field,
assert the type hint (if any) matches via isinstance — on failure the
factory and hint are NOT cleared, exactly as in the source where the
assert raises before the clearing assignments — then clear factory and
type hint.  Returns the result, the successor state and the number of
factory invocations performed. -/
def LazyInstance._instance (env : CallEnv) (s : LazyInstance) :
    Except PyError PyVal × LazyInstance × Nat :=
  if s._li_factory.isNone then
    (Except.ok s._li_instance, s, 0)
  else
    let n := if s._li_factory.callable then 1 else 0
    match callPy env s._li_factory [] with
    | Except.error e => (Except.error e, s, n)
    | Except.ok inst =>
      if s._li_type_hint.isNone || isinstance inst s._li_type_hint then
        (Except.ok inst, ⟨inst, PyVal.none, PyVal.none, s._li_strict⟩, n)
      else
        (Except.error .assertionError, ⟨inst, s._li_factory, s._li_type_hint, s._li_strict⟩, n)

/-- The accessor built by _li_bind_method_impl from its method_or_name
argument: a non-callable argument x is wrapped as methodcaller(getattr, x)
(the getter mapping obj to getattr(obj, x); methodcaller is modelled from
the spec: the operator module, not under src/, provides a callable that
turns an attribute-access request into a getter function), while a
callable argument is used as the getter itself. -/
inductive Accessor : Type where
  | methodcallerGetattr (nameVal : PyVal) : Accessor
  | plainCallable (f : PyVal) : Accessor

/-- The "if not callable(method_or_name): method_or_name =
methodcaller(getattr, method_or_name)" step of _li_bind_method_impl. -/
def toAccessor (x : PyVal) : Accessor :=
  if x.callable then .plainCallable x else .methodcallerGetattr x

/-- Applying an accessor to the wrapped instance: the wrapped-getattr form
performs getattr(obj, nameVal); an original callable getter is called on
the instance. -/
def applyAccessor (env : CallEnv) (acc : Accessor) (obj : PyVal) : Except PyError PyVal :=
  match acc with
  | .methodcallerGetattr nv => getattrVal obj nv
  | .plainCallable f => callPy env f [obj]

/-- Result of __getattr__ or _li_bind_method_impl: either a plain value
(delegated attribute access or an immediately resolved bound target) or a
deferred caller — the closure lambda *args: method_or_name(self._instance)(*args)
represented by its captured accessor (the proxy itself is passed
explicitly when the closure is invoked, see invokeDeferred). -/
inductive BindResult : Type where
  | val (v : PyVal) : BindResult
  | deferred (acc : Accessor) : BindResult

/-- Embedding of LazyInstance._li_bind_method_impl(method_or_name): wrap a
non-callable argument as a getattr-getter; if the factory is already
consumed, apply the accessor to the wrapped instance now and return the
result; otherwise return the deferred closure.  The method reads but never
mutates the proxy state and never invokes the factory. -/
def LazyInstance._li_bind_method_impl (env : CallEnv) (s : LazyInstance)
    (method_or_name : PyVal) : Except PyError BindResult :=
  let acc := toAccessor method_or_name
  if s._li_factory.isNone then
    (applyAccessor env acc s._li_instance).map BindResult.val
  else
    Except.ok (BindResult.deferred acc)

/-- The pure part of invoking a deferred caller once the wrapped instance
is in hand: apply the accessor to the instance and call the resulting
target with the arguments. -/
def invokeDeferredApply (env : CallEnv) (acc : Accessor) (args : List PyVal)
    (inst : PyVal) : Except PyError PyVal :=
  match applyAccessor env acc inst with
  | Except.error e => Except.error e
  | Except.ok target => callPy env target args

/-- The body of the deferred caller returned by _li_bind_method_impl (the
closure lambda *args: method_or_name(self._instance)(*args)), run on an
already-bound positional argument list: resolve self._instance (possibly
constructing the wrapped object), apply the accessor to it, and call the
resulting target with the arguments.  The call binding itself — including
the rejection of keyword arguments by the lambda *args signature — is
modelled by invokeDeferredKw. -/
def invokeDeferred (env : CallEnv) (s : LazyInstance) (acc : Accessor)
    (args : List PyVal) : Except PyError PyVal × LazyInstance × Nat :=
  match s._instance env with
  | (Except.error e, s', n) => (Except.error e, s', n)
  | (Except.ok inst, s', n) => (invokeDeferredApply env acc args inst, s', n)

/-- Invoking the deferred closure with a full Python call carrying
positional and keyword arguments.  The closure is lambda *args: it accepts
positional arguments only, so a call with any keyword argument raises
TypeError during call binding, before the closure body runs — the proxy
state is untouched, the factory is not invoked and the bound method is not
called.  With no keyword arguments the closure body runs on the positional
list. -/
def invokeDeferredKw (env : CallEnv) (s : LazyInstance) (acc : Accessor)
    (args : List PyVal) (kwargs : List (String × PyVal)) :
    Except PyError PyVal × LazyInstance × Nat :=
  match kwargs with
  | [] => invokeDeferred env s acc args
  | (k, _) :: _ =>
    (Except.error (PyError.typeError ("got an unexpected keyword argument " ++ k)), s, 0)

/-- The type-hint step of LazyInstance.__getattr__(name).  If a type hint
is present, look name up on the type hint — with getattr (raising
AttributeError on a miss) in strict mode, with getattr(..., None) in
non-strict mode — and if the looked-up value is callable answer with
_li_bind_method_impl(name); answering Option.none means __getattr__ falls
through to instance delegation.  (Python invokes __getattr__ only for
names not found by normal lookup; the names the claims exercise are of
that kind.) -/
def LazyInstance.getattrHintStep (env : CallEnv) (s : LazyInstance) (name : String) :
    Except PyError (Option BindResult) :=
  if !(s._li_type_hint.isNone) then
    match (if s._li_strict then getattrVal s._li_type_hint (.str name)
           else getattrOrNone s._li_type_hint (.str name)) with
    | Except.error e => Except.error e
    | Except.ok value =>
      if value.callable then
        (s._li_bind_method_impl env (.str name)).map some
      else
        Except.ok Option.none
  else
    Except.ok Option.none

/-- The fall-through branch of __getattr__: force the wrapped instance and
delegate the attribute access to it. -/
def LazyInstance.getattrDelegate (env : CallEnv) (s : LazyInstance) (name : String) :
    Except PyError BindResult × LazyInstance × Nat :=
  match s._instance env with
  | (Except.ok inst, s', n) => ((getattrVal inst (.str name)).map BindResult.val, s', n)
  | (Except.error e, s', n) => (Except.error e, s', n)

/-- Embedding of LazyInstance.__getattr__(name), combining the type-hint
step with the delegation fall-through. -/
def LazyInstance.getattr (env : CallEnv) (s : LazyInstance) (name : String) :
    Except PyError BindResult × LazyInstance × Nat :=
  match s.getattrHintStep env name with
  | Except.error e => (Except.error e, s, 0)
  | Except.ok (some r) => (Except.ok r, s, 0)
  | Except.ok Option.none => s.getattrDelegate env name

/-- Result of LazyInstance._bind_method: a single deferred-or-value result
for one argument, or the mapped sequence for several. -/
inductive BindMethodResult : Type where
  | single (r : BindResult) : BindMethodResult
  | multiple (rs : List (Except PyError BindResult)) : BindMethodResult

/-- Embedding of LazyInstance._bind_method(*methods_or_names).  For exactly
one argument the source passes the WHOLE argument tuple — not its sole
element — to _li_bind_method_impl (return self._li_bind_method_impl(methods_or_names)),
which the embedding renders as the tuple value of the argument list; for
any other arity it maps _li_bind_method_impl over the arguments. -/
def LazyInstance._bind_method (env : CallEnv) (s : LazyInstance)
    (methods_or_names : List PyVal) : Except PyError BindMethodResult :=
  if methods_or_names.length = 1 then
    (s._li_bind_method_impl env (.tupleV methods_or_names)).map BindMethodResult.single
  else
    Except.ok (.multiple (methods_or_names.map (s._li_bind_method_impl env)))

/-- An externally triggered operation on a proxy, for stating lifecycle
invariants over arbitrary operation sequences: an attribute access, the
invocation of a previously returned deferred caller, or a direct forcing
of the _instance property. -/
inductive Op : Type where
  | getattrOp (name : String) : Op
  | invokeDeferredOp (acc : Accessor) (args : List PyVal) : Op
  | forceOp : Op

/-- Run one operation on a proxy state, keeping the successor state and the
number of factory invocations it performed. -/
def runOp (env : CallEnv) (s : LazyInstance) : Op → LazyInstance × Nat
  | .getattrOp name => ((s.getattr env name).2.1, (s.getattr env name).2.2)
  | .invokeDeferredOp acc args =>
    ((invokeDeferred env s acc args).2.1, (invokeDeferred env s acc args).2.2)
  | .forceOp => ((s._instance env).2.1, (s._instance env).2.2)

/-- Run a sequence of operations, accumulating the total number of factory
invocations. -/
def runOps (env : CallEnv) (s : LazyInstance) : List Op → LazyInstance × Nat
  | [] => (s, 0)
  | op :: ops =>
    let p := runOp env s op
    let q := runOps env p.1 ops
    (q.1, p.2 + q.2)

/-- A call environment for concrete lifecycle checks: code 0 is a factory
returning an instance of class C with a method run (code 1); code 1 echoes
its argument tuple back. -/
def envC : CallEnv := fun id args =>
  if id = 0 then Except.ok (PyVal.objV "C" [("run", PyVal.callableV 1)])
  else if id = 1 then Except.ok (PyVal.tupleV args)
  else Except.error PyError.assertionError

/-- An unconstructed proxy over envC's factory, without type hint. -/
def sC : LazyInstance := ⟨PyVal.none, PyVal.callableV 0, PyVal.none, false⟩

/-- An unconstructed proxy over envC's factory whose type hint is class C
with the callable member run. -/
def sCHint : LazyInstance :=
  ⟨PyVal.none, PyVal.callableV 0, PyVal.typeV "C" [("run", PyVal.callableV 1)], false⟩

/-- A call environment whose factory (code 0) returns an instance of class
U carrying one non-callable attribute bar. -/
def envU : CallEnv := fun id _ =>
  if id = 0 then Except.ok (PyVal.objV "U" [("bar", PyVal.int 9)])
  else Except.error PyError.assertionError

/-- A successful Python call implies the callee was callable. -/
theorem callPy_ok_callable (env : CallEnv) (f : PyVal) (args : List PyVal)
    (v : PyVal) (h : callPy env f args = Except.ok v) : f.callable = true := by
  cases f <;> simp_all [callPy, PyVal.callable]

/-- With the factory consumed, the _instance property returns the cached
instance, leaves the state unchanged and performs no factory invocation. -/
theorem instance_factory_none (env : CallEnv) (s : LazyInstance)
    (h : s._li_factory.isNone = true) :
    s._instance env = (Except.ok s._li_instance, s, 0) := by
  unfold LazyInstance._instance
  simp [h]

/-- With the factory consumed, the delegation branch of __getattr__ keeps
the state and performs no factory invocation. -/
theorem getattrDelegate_factory_none (env : CallEnv) (s : LazyInstance) (name : String)
    (h : s._li_factory.isNone = true) :
    s.getattrDelegate env name =
      ((getattrVal s._li_instance (.str name)).map BindResult.val, s, 0) := by
  unfold LazyInstance.getattrDelegate
  rw [instance_factory_none env s h]

/-- With the factory consumed, __getattr__ leaves the state unchanged and
performs no factory invocation. -/
theorem getattr_factory_none (env : CallEnv) (s : LazyInstance) (name : String)
    (h : s._li_factory.isNone = true) :
    (s.getattr env name).2.1 = s ∧ (s.getattr env name).2.2 = 0 := by
  unfold LazyInstance.getattr
  rw [getattrDelegate_factory_none env s name h]
  split <;> simp

/-- With the factory consumed, invoking a deferred caller leaves the state
unchanged and performs no factory invocation. -/
theorem invokeDeferred_factory_none (env : CallEnv) (s : LazyInstance)
    (acc : Accessor) (args : List PyVal) (h : s._li_factory.isNone = true) :
    invokeDeferred env s acc args =
      (invokeDeferredApply env acc args s._li_instance, s, 0) := by
  unfold invokeDeferred
  rw [instance_factory_none env s h]

/-- With the factory consumed, no operation changes the state or invokes
the factory. -/
theorem runOp_factory_none (env : CallEnv) (s : LazyInstance) (op : Op)
    (h : s._li_factory.isNone = true) :
    (runOp env s op).1 = s ∧ (runOp env s op).2 = 0 := by
  cases op with
  | getattrOp name =>
    have hg := getattr_factory_none env s name h
    simp [runOp, hg.1, hg.2]
  | invokeDeferredOp acc args =>
    simp [runOp, invokeDeferred_factory_none env s acc args h]
  | forceOp => simp [runOp, instance_factory_none env s h]

/-- With the factory consumed, no operation sequence changes the state or
invokes the factory. -/
theorem runOps_factory_none (env : CallEnv) (s : LazyInstance) (ops : List Op)
    (h : s._li_factory.isNone = true) :
    (runOps env s ops).1 = s ∧ (runOps env s ops).2 = 0 := by
  induction ops with
  | nil => simp [runOps]
  | cons op ops ih =>
    have h1 := runOp_factory_none env s op h
    simp [runOps, h1.1, h1.2, ih]

/-- A list of genuine functions wrapped as comp arguments is all-callable. -/
theorem all_map_fn {α : Type} (fs : List (α → Except PyError α)) :
    (fs.map Arg.fn).all Arg.callable = true := by
  induction fs with
  | nil => rfl
  | cons f fs ih => simp [Arg.callable, ih]

/-- Folding rapply over wrapped functions is the left-to-right pipeline of
the underlying functions. -/
theorem foldlM_rapply_map {α : Type} (fs : List (α → Except PyError α)) (x : α) :
    List.foldlM rapply x (fs.map Arg.fn) = List.foldlM (fun a f => f a) x fs := by
  induction fs generalizing x with
  | nil => rfl
  | cons f fs ih =>
    have h1 : List.foldlM rapply x (List.map Arg.fn (f :: fs)) =
        f x >>= fun y => List.foldlM rapply y (List.map Arg.fn fs) := rfl
    have h2 : List.foldlM (fun a g => g a) x (f :: fs) =
        f x >>= fun y => List.foldlM (fun a g => g a) y fs := rfl
    rw [h1, h2]
    cases f x with
    | error e => rfl
    | ok a => exact ih a

/-- C1 (amended): comp applies the declared functions left to right —
comp(f1, ..., fn)(x) computes fn(...(f2(f1(x)))...), the FIRST-declared
function being applied first to the input; equivalently, calling the
composite equals the left fold of function application over the declared
sequence. -/
theorem comp_left_to_right (α : Type) (fs : List (α → Except PyError α)) (x : α) :
    compApply (fs.map Arg.fn) x = List.foldlM (fun a f => f a) x fs := by
  cases fs with
  | nil => rfl
  | cons f fs' =>
    cases fs' with
    | nil =>
      show f x = List.foldlM (fun a g => g a) x [f]
      have h2 : List.foldlM (fun a g => g a) x [f] = f x >>= pure := rfl
      rw [h2]
      cases f x <;> rfl
    | cons g fs'' =>
      have hall : ((f :: g :: fs'').map Arg.fn).all Arg.callable = true :=
        all_map_fn (f :: g :: fs'')
      unfold compApply comp
      simp only [List.map_cons] at hall ⊢
      rw [hall]
      simp only [if_true, Bool.true_eq]
      exact foldlM_rapply_map (f :: g :: fs'') x

/-- C1 (counterexample to the claim as stated): for f(n) = n + 1 and
g(n) = 2 * n, the claim predicts comp(f, g)(3) = f(g(3)) = 7, but the code
computes g(f(3)) = 8. -/
theorem comp_right_to_left_counterexample :
    compApply [Arg.fn (fun n : Nat => Except.ok (n + 1)),
               Arg.fn (fun n : Nat => Except.ok (2 * n))] 3 = Except.ok 8 ∧
    Except.bind (Except.ok (2 * 3) : Except PyError Nat)
      (fun m => Except.ok (m + 1)) = Except.ok 7 ∧
    (Except.ok 8 : Except PyError Nat) ≠ (Except.ok 7 : Except PyError Nat) :=
  ⟨rfl, rfl, fun h => absurd (Except.ok.inj h) (by decide)⟩

/-- C9: comp with zero arguments returns an identity pass-through (applied
to any x it returns x unchanged), and comp with exactly one argument
returns that function object itself, unchanged and without any wrapper. -/
theorem comp_degenerate_cases (α : Type) (g : α → Except PyError α) (x : α) :
    compApply ([] : List (Arg α)) x = Except.ok x ∧
    comp [Arg.fn g] = Except.ok (Arg.fn g) :=
  ⟨rfl, rfl⟩

/-- C3: both construction-time contract violations raise at construction,
before any call is made: comp raises its assert-borne error (the spec's
TypeKind taxonomy, an AssertionError in the code) as soon as any argument
is non-callable, and LazyInstance.__init__ raises TypeError when type_hint
is neither None nor a type. -/
theorem construction_time_type_errors (α : Type) (funcs : List (Arg α))
    (f th : PyVal) (strict : Bool)
    (hfuncs : funcs.all Arg.callable = false)
    (hth1 : th.isNone = false) (hth2 : isTypesType th = false) :
    comp funcs = Except.error PyError.assertionError ∧
    LazyInstance.init f th strict =
      Except.error (PyError.typeError
        ("type_hint must be None or a type, not " ++ classOf th)) := by
  constructor
  · unfold comp
    rw [hfuncs]
    rfl
  · unfold LazyInstance.init
    rw [hth1, hth2]
    rfl

/-- Witness for C3 at concrete inputs: comp applied to the single
non-callable argument and __init__ applied to the int 7 as type hint. -/
theorem construction_time_type_errors_witness :
    comp ([Arg.nonCallable] : List (Arg Nat)) = Except.error PyError.assertionError ∧
    LazyInstance.init (PyVal.callableV 0) (PyVal.int 7) false =
      Except.error (PyError.typeError "type_hint must be None or a type, not int") :=
  construction_time_type_errors Nat [Arg.nonCallable] (PyVal.callableV 0)
    (PyVal.int 7) false rfl rfl rfl

/-- A non-callable value raises TypeError when called. -/
theorem callPy_noncallable (env : CallEnv) (f : PyVal) (args : List PyVal)
    (h : f.callable = false) :
    callPy env f args = Except.error (PyError.typeError "object is not callable") := by
  cases f <;> simp_all [callPy, PyVal.callable]

/-- C6: on a strict proxy whose type hint lacks the requested attribute,
__getattr__ raises AttributeError, the state is unchanged and the factory
is never invoked (the proxy remains unconstructed). -/
theorem strict_missing_attr (env : CallEnv) (s : LazyInstance) (name : String)
    (tn : String) (ta : List (String × PyVal))
    (hhint : s._li_type_hint = PyVal.typeV tn ta)
    (hstrict : s._li_strict = true)
    (habsent : ta.lookup name = (Option.none : Option PyVal)) :
    s.getattr env name = (Except.error (PyError.attributeError name), s, 0) := by
  unfold LazyInstance.getattr LazyInstance.getattrHintStep
  simp [hhint, hstrict, getattrVal, lookupAttr, habsent, PyVal.isNone]

/-- Witness for C6: a strict proxy hinted at the memberless class T; the
access raises AttributeError for foo, touching neither state nor factory. -/
theorem strict_missing_attr_witness :
    LazyInstance.getattr envU
      (⟨PyVal.none, PyVal.callableV 0, PyVal.typeV "T" [], true⟩ : LazyInstance) "foo" =
      (Except.error (PyError.attributeError "foo"),
       (⟨PyVal.none, PyVal.callableV 0, PyVal.typeV "T" [], true⟩ : LazyInstance), 0) :=
  strict_missing_attr envU _ "foo" "T" [] rfl rfl rfl

/-- C7: on a non-strict proxy whose type hint lacks the requested
attribute, the type-hint lookup never raises; __getattr__ forces
instantiation through the factory (one invocation, factory and hint
cleared) and returns exactly the result of the real instance's own
attribute access, error or value alike. -/
theorem nonstrict_missing_attr_delegates (env : CallEnv) (s : LazyInstance)
    (name tn : String) (ta : List (String × PyVal)) (inst : PyVal)
    (hhint : s._li_type_hint = PyVal.typeV tn ta)
    (hstrict : s._li_strict = false)
    (habsent : ta.lookup name = (Option.none : Option PyVal))
    (hfac : s._li_factory.isNone = false)
    (hcall : callPy env s._li_factory [] = Except.ok inst)
    (hinst : isinstance inst (PyVal.typeV tn ta) = true) :
    s.getattr env name =
      ((getattrVal inst (PyVal.str name)).map BindResult.val,
       (⟨inst, PyVal.none, PyVal.none, s._li_strict⟩ : LazyInstance), 1) := by
  have hc : s._li_factory.callable = true := callPy_ok_callable env _ _ _ hcall
  have hh : (PyVal.typeV tn ta).isNone = false := rfl
  have hv : getattrOrNone (PyVal.typeV tn ta) (PyVal.str name) = Except.ok PyVal.none := by
    simp [getattrOrNone, getattrVal, lookupAttr, habsent]
  have hvc : PyVal.none.callable = false := rfl
  unfold LazyInstance.getattr LazyInstance.getattrHintStep LazyInstance.getattrDelegate
    LazyInstance._instance
  simp [hhint, hstrict, hh, hv, hvc, hfac, hc, hcall, hinst]

/-- Witness for C7: a non-strict proxy hinted at the memberless class U;
accessing foo instantiates (one factory invocation) and surfaces the
instance's own AttributeError for foo. -/
theorem nonstrict_missing_attr_delegates_witness :
    LazyInstance.getattr envU
      (⟨PyVal.none, PyVal.callableV 0, PyVal.typeV "U" [], false⟩ : LazyInstance) "foo" =
      (Except.error (PyError.attributeError "foo"),
       (⟨PyVal.objV "U" [("bar", PyVal.int 9)], PyVal.none, PyVal.none, false⟩ : LazyInstance), 1) :=
  nonstrict_missing_attr_delegates envU _ "foo" "U" []
    (PyVal.objV "U" [("bar", PyVal.int 9)]) rfl rfl rfl rfl rfl rfl

/-- C4: on a proxy with a type hint, when the factory's product fails the
isinstance check, any attribute access that forces instantiation (one
whose type-hint lookup yields a non-callable value) raises the assert's
TypeMismatch error; the error propagates uncaught — the state keeps the
factory and hint (the assert fires before they are cleared) and the
operation performs exactly the one factory invocation. -/
theorem type_mismatch_on_forcing_access (env : CallEnv) (s : LazyInstance)
    (name : String) (v inst : PyVal)
    (hhint : s._li_type_hint.isNone = false)
    (hvalue : (if s._li_strict then getattrVal s._li_type_hint (PyVal.str name)
               else getattrOrNone s._li_type_hint (PyVal.str name)) = Except.ok v)
    (hnc : v.callable = false)
    (hfac : s._li_factory.isNone = false)
    (hcall : callPy env s._li_factory [] = Except.ok inst)
    (hmis : isinstance inst s._li_type_hint = false) :
    s.getattr env name =
      (Except.error PyError.assertionError,
       (⟨inst, s._li_factory, s._li_type_hint, s._li_strict⟩ : LazyInstance), 1) := by
  have hc : s._li_factory.callable = true := callPy_ok_callable env _ _ _ hcall
  unfold LazyInstance.getattr LazyInstance.getattrHintStep LazyInstance.getattrDelegate
    LazyInstance._instance
  simp [hhint, hvalue, hnc, hfac, hc, hcall, hmis]

/-- Witness for C4: the proxy is hinted at class T but envU's factory
produces an instance of the unrelated class U; accessing foo forces
instantiation and raises the TypeMismatch assertion error, with factory
and hint retained. -/
theorem type_mismatch_on_forcing_access_witness :
    LazyInstance.getattr envU
      (⟨PyVal.none, PyVal.callableV 0, PyVal.typeV "T" [], false⟩ : LazyInstance) "foo" =
      (Except.error PyError.assertionError,
       (⟨PyVal.objV "U" [("bar", PyVal.int 9)], PyVal.callableV 0,
         PyVal.typeV "T" [], false⟩ : LazyInstance), 1) :=
  type_mismatch_on_forcing_access envU _ "foo" PyVal.none
    (PyVal.objV "U" [("bar", PyVal.int 9)]) rfl rfl rfl rfl rfl rfl

/-- C8 (counterexample to the claim as stated): on the unconstructed proxy
sCHint whose hint resolves run to a callable member, __getattr__ returns a
deferred caller, but invoking that caller with the keyword argument key=1
raises TypeError at call binding — the state is unchanged (the factory,
still set, was never invoked) and the result is not the bound method's
result, although the method itself would have returned normally —
refuting the claim's quantification over every list of positional and
keyword arguments. -/
theorem deferred_method_binding_kwargs_counterexample :
    LazyInstance.getattr envC sCHint "run" =
      (Except.ok (BindResult.deferred (Accessor.methodcallerGetattr (PyVal.str "run"))),
       sCHint, 0) ∧
    invokeDeferredKw envC sCHint (Accessor.methodcallerGetattr (PyVal.str "run"))
      [] [("key", PyVal.int 1)] =
      (Except.error (PyError.typeError "got an unexpected keyword argument key"),
       sCHint, 0) ∧
    sCHint._li_factory.isNone = false ∧
    callPy envC (PyVal.callableV 1) [] = Except.ok (PyVal.tupleV []) ∧
    (Except.error (PyError.typeError "got an unexpected keyword argument key") :
      Except PyError PyVal) ≠ Except.ok (PyVal.tupleV []) :=
  ⟨rfl, rfl, rfl, rfl, fun h => Except.noConfusion h⟩

/-- C8 (amended): on an unconstructed proxy whose type hint resolves the
name to a callable member, __getattr__ returns a deferred caller without
invoking the factory and without touching the state; invoking that caller
with any list of POSITIONAL arguments (and no keyword arguments) ensures
the real instance exists — constructing it through the factory exactly
once if not yet done, or reusing the cached instance with zero invocations
if already done — and then invokes the bound method resolved from the real
instance with exactly those arguments, returning its result; invoking it
with any keyword argument raises TypeError at call binding, before the
factory is invoked or the method called, because the deferred caller is
lambda *args and accepts positional arguments only. -/
theorem deferred_method_binding (env : CallEnv) (s : LazyInstance)
    (name : String) (v inst : PyVal) (mid : Nat) (args : List PyVal)
    (hhint : s._li_type_hint.isNone = false)
    (hlookup : (if s._li_strict then getattrVal s._li_type_hint (PyVal.str name)
                else getattrOrNone s._li_type_hint (PyVal.str name)) = Except.ok v)
    (hcallable : v.callable = true)
    (hunc : s._li_factory.isNone = false)
    (hcall : callPy env s._li_factory [] = Except.ok inst)
    (hok : isinstance inst s._li_type_hint = true)
    (hm : getattrVal inst (PyVal.str name) = Except.ok (PyVal.callableV mid)) :
    s.getattr env name =
      (Except.ok (BindResult.deferred (Accessor.methodcallerGetattr (PyVal.str name))), s, 0) ∧
    invokeDeferredKw env s (Accessor.methodcallerGetattr (PyVal.str name)) args [] =
      (env mid args, (⟨inst, PyVal.none, PyVal.none, s._li_strict⟩ : LazyInstance), 1) ∧
    (∀ t : LazyInstance, t._li_factory.isNone = true →
      invokeDeferredKw env t (Accessor.methodcallerGetattr (PyVal.str name)) args [] =
        ((getattrVal t._li_instance (PyVal.str name)).bind
          (fun m => callPy env m args), t, 0)) ∧
    (∀ (t : LazyInstance) (k : String) (w : PyVal) (rest : List (String × PyVal)),
      invokeDeferredKw env t (Accessor.methodcallerGetattr (PyVal.str name)) args
        ((k, w) :: rest) =
        (Except.error (PyError.typeError ("got an unexpected keyword argument " ++ k)),
         t, 0)) := by
  have hc : s._li_factory.callable = true := callPy_ok_callable env _ _ _ hcall
  refine ⟨?_, ?_, ?_, ?_⟩
  · unfold LazyInstance.getattr LazyInstance.getattrHintStep
      LazyInstance._li_bind_method_impl toAccessor
    simp [hhint, hlookup, hcallable, hunc, Except.map,
      show (PyVal.str name).callable = false from rfl]
  · show invokeDeferred env s (Accessor.methodcallerGetattr (PyVal.str name)) args = _
    unfold invokeDeferred LazyInstance._instance invokeDeferredApply applyAccessor
    simp [hunc, hc, hcall, hhint, hok, hm,
      show callPy env (PyVal.callableV mid) args = env mid args from rfl]
  · intro t ht
    show invokeDeferred env t (Accessor.methodcallerGetattr (PyVal.str name)) args = _
    rw [invokeDeferred_factory_none env t _ args ht]
    have happ : invokeDeferredApply env (Accessor.methodcallerGetattr (PyVal.str name))
        args t._li_instance =
        (getattrVal t._li_instance (PyVal.str name)).bind (fun m => callPy env m args) := by
      have h0 : applyAccessor env (Accessor.methodcallerGetattr (PyVal.str name))
          t._li_instance = getattrVal t._li_instance (PyVal.str name) := rfl
      unfold invokeDeferredApply
      rw [h0]
      cases getattrVal t._li_instance (PyVal.str name) <;> rfl
    rw [happ]
  · intro t k w rest
    rfl

/-- Witness for C8's amended theorem: the proxy sCHint is hinted at class C
whose member run is callable; accessing run yields a deferred caller with
no factory invocation, invoking it with one positional argument and no
keyword arguments constructs the instance once and calls run with exactly
that argument (run echoes its argument tuple), on an already-constructed
proxy the deferred caller reuses the cached instance with zero
invocations, and invoking it with a keyword argument raises TypeError
with the state untouched and zero invocations. -/
theorem deferred_method_binding_witness :
    LazyInstance.getattr envC sCHint "run" =
      (Except.ok (BindResult.deferred (Accessor.methodcallerGetattr (PyVal.str "run"))),
       sCHint, 0) ∧
    invokeDeferredKw envC sCHint (Accessor.methodcallerGetattr (PyVal.str "run"))
      [PyVal.str "x"] [] =
      (envC 1 [PyVal.str "x"],
       (⟨PyVal.objV "C" [("run", PyVal.callableV 1)], PyVal.none, PyVal.none,
         false⟩ : LazyInstance), 1) ∧
    invokeDeferredKw envC
      (⟨PyVal.objV "C" [("run", PyVal.callableV 1)], PyVal.none, PyVal.none,
        false⟩ : LazyInstance)
      (Accessor.methodcallerGetattr (PyVal.str "run")) [PyVal.str "x"] [] =
      ((getattrVal (PyVal.objV "C" [("run", PyVal.callableV 1)]) (PyVal.str "run")).bind
        (fun m => callPy envC m [PyVal.str "x"]),
       (⟨PyVal.objV "C" [("run", PyVal.callableV 1)], PyVal.none, PyVal.none,
         false⟩ : LazyInstance), 0) ∧
    invokeDeferredKw envC
      (⟨PyVal.objV "C" [("run", PyVal.callableV 1)], PyVal.none, PyVal.none,
        false⟩ : LazyInstance)
      (Accessor.methodcallerGetattr (PyVal.str "run")) [PyVal.str "x"]
      [("key", PyVal.int 1)] =
      (Except.error (PyError.typeError ("got an unexpected keyword argument " ++ "key")),
       (⟨PyVal.objV "C" [("run", PyVal.callableV 1)], PyVal.none, PyVal.none,
         false⟩ : LazyInstance), 0) := by
  have h := deferred_method_binding envC sCHint "run" (PyVal.callableV 1)
    (PyVal.objV "C" [("run", PyVal.callableV 1)]) 1 [PyVal.str "x"]
    rfl rfl rfl rfl rfl rfl rfl
  exact ⟨h.1, h.2.1, h.2.2.1 _ rfl, h.2.2.2 _ "key" (PyVal.int 1) []⟩

/-- C5 (counterexample to the claim as stated): a proxy whose factory
produces an instance of class U while the hint is class T; the first
forcing access invokes the factory, the isinstance assert fails before the
factory is cleared, so a second forcing access invokes the factory again —
two invocations over the proxy's lifetime, contradicting at most once. -/
theorem factory_reinvoked_counterexample :
    LazyInstance.init (PyVal.callableV 0) (PyVal.typeV "T" []) false =
      Except.ok (⟨PyVal.none, PyVal.callableV 0, PyVal.typeV "T" [], false⟩ : LazyInstance) ∧
    (runOps envU (⟨PyVal.none, PyVal.callableV 0, PyVal.typeV "T" [], false⟩ : LazyInstance)
      [Op.forceOp, Op.forceOp]).2 = 2 ∧
    ¬(2 ≤ 1) :=
  ⟨rfl, rfl, by decide⟩

/-- C5 (amended): the factory is invoked at most once provided its first
invocation succeeds and satisfies the type hint.  Construction stores the
factory without invoking it (instance None, factory kept as passed); a
forcing access whose factory call returns an instance passing the type
hint check (or with no hint set) invokes the factory exactly once and
clears factory and hint; and once the factory is cleared, every operation
sequence of any length performs zero further invocations.  (When the
factory call raises or the isinstance assert fails, the factory is NOT
cleared and a later forcing access invokes it again — see the
counterexample.) -/
theorem factory_at_most_once_amended (env : CallEnv) (f th : PyVal)
    (strict : Bool) (s s0 : LazyInstance) (inst : PyVal) (ops : List Op)
    (hinit : LazyInstance.init f th strict = Except.ok s0)
    (hfac : s._li_factory.isNone = false)
    (hcall : callPy env s._li_factory [] = Except.ok inst)
    (hok : s._li_type_hint.isNone = true ∨ isinstance inst s._li_type_hint = true) :
    (s0._li_instance = PyVal.none ∧ s0._li_factory = f) ∧
    s._instance env =
      (Except.ok inst, (⟨inst, PyVal.none, PyVal.none, s._li_strict⟩ : LazyInstance), 1) ∧
    (∀ t : LazyInstance, t._li_factory.isNone = true → (runOps env t ops).2 = 0) := by
  have hc : s._li_factory.callable = true := callPy_ok_callable env _ _ _ hcall
  refine ⟨?_, ?_, ?_⟩
  · unfold LazyInstance.init at hinit
    split at hinit
    · exact ⟨congrArg LazyInstance._li_instance (Except.ok.inj hinit).symm ▸ rfl,
        congrArg LazyInstance._li_factory (Except.ok.inj hinit).symm ▸ rfl⟩
    · split at hinit
      · exact absurd hinit (by simp)
      · exact ⟨congrArg LazyInstance._li_instance (Except.ok.inj hinit).symm ▸ rfl,
          congrArg LazyInstance._li_factory (Except.ok.inj hinit).symm ▸ rfl⟩
  · unfold LazyInstance._instance
    rcases hok with hok | hok <;> simp [hfac, hc, hcall, hok]
  · intro t ht
    exact (runOps_factory_none env t ops ht).2

/-- Witness for C5's amended theorem: envC's factory builds a class C
instance matching the hint; construction stores the factory uninvoked, the
first forcing access invokes it exactly once and clears it, and the
cleared proxy performs zero invocations across a further two-operation
sequence. -/
theorem factory_at_most_once_amended_witness :
    (sCHint._li_instance = PyVal.none ∧ sCHint._li_factory = PyVal.callableV 0) ∧
    sCHint._instance envC =
      (Except.ok (PyVal.objV "C" [("run", PyVal.callableV 1)]),
       (⟨PyVal.objV "C" [("run", PyVal.callableV 1)], PyVal.none, PyVal.none,
         false⟩ : LazyInstance), 1) ∧
    (runOps envC
      (⟨PyVal.objV "C" [("run", PyVal.callableV 1)], PyVal.none, PyVal.none,
        false⟩ : LazyInstance)
      [Op.getattrOp "run", Op.forceOp]).2 = 0 := by
  have h := factory_at_most_once_amended envC (PyVal.callableV 0)
    (PyVal.typeV "C" [("run", PyVal.callableV 1)]) false sCHint sCHint
    (PyVal.objV "C" [("run", PyVal.callableV 1)]) [Op.getattrOp "run", Op.forceOp]
    rfl rfl rfl (Or.inr rfl)
  exact ⟨h.1, h.2.1, h.2.2 _ rfl⟩

/-- C10: LazyInstance.__init__ never validates that factory is callable —
construction succeeds for every factory value whenever the type hint is
valid; a proxy holding a non-callable non-None factory fails only when an
access forces instantiation, raising the call-time TypeError with zero
factory invocations and the state unchanged; and a proxy whose factory is
None behaves as permanently constructed with instance None, every forcing
access returning the cached None and every operation sequence performing
zero factory invocations. -/
theorem factory_not_validated_at_construction (env : CallEnv) (th f : PyVal)
    (strict : Bool) (ops : List Op)
    (hth : th.isNone = true ∨ isTypesType th = true)
    (hnc : f.callable = false) (hnn : f.isNone = false) :
    (∀ g : PyVal, ∃ s1, LazyInstance.init g th strict = Except.ok s1) ∧
    (∀ s : LazyInstance, s._li_factory = f →
      s._instance env = (Except.error (PyError.typeError "object is not callable"), s, 0)) ∧
    (∀ s : LazyInstance, s._li_factory = PyVal.none →
      s._instance env = (Except.ok s._li_instance, s, 0) ∧ (runOps env s ops).2 = 0) := by
  refine ⟨?_, ?_, ?_⟩
  · intro g
    unfold LazyInstance.init
    rcases hth with hth | hth
    · refine ⟨⟨PyVal.none, g, (if isTypesType g then g else PyVal.none), strict⟩, ?_⟩
      simp [hth]
    · have hthn : th.isNone = false := by
        cases th <;> simp_all [isTypesType, PyVal.isNone]
      refine ⟨⟨PyVal.none, g, th, strict⟩, ?_⟩
      simp [hthn, hth]
  · intro s hs
    unfold LazyInstance._instance
    rw [hs]
    simp [hnn, hnc, callPy_noncallable env f [] hnc]
  · intro s hs
    have hs' : s._li_factory.isNone = true := by rw [hs]; rfl
    exact ⟨instance_factory_none env s hs', (runOps_factory_none env s ops hs').2⟩

/-- Witness for C10: with no type hint, construction succeeds for the
non-callable factory 5; the proxy holding 5 as factory raises TypeError
only when forced, with zero invocations; and the proxy constructed from a
None factory returns None from forcing and performs zero invocations over
a concrete two-operation sequence. -/
theorem factory_not_validated_at_construction_witness :
    (∃ s1, LazyInstance.init (PyVal.int 5) PyVal.none false = Except.ok s1) ∧
    LazyInstance._instance envU
      (⟨PyVal.none, PyVal.int 5, PyVal.none, false⟩ : LazyInstance) =
      (Except.error (PyError.typeError "object is not callable"),
       (⟨PyVal.none, PyVal.int 5, PyVal.none, false⟩ : LazyInstance), 0) ∧
    LazyInstance._instance envU
      (⟨PyVal.none, PyVal.none, PyVal.none, false⟩ : LazyInstance) =
      (Except.ok PyVal.none,
       (⟨PyVal.none, PyVal.none, PyVal.none, false⟩ : LazyInstance), 0) ∧
    (runOps envU (⟨PyVal.none, PyVal.none, PyVal.none, false⟩ : LazyInstance)
      [Op.forceOp, Op.getattrOp "x"]).2 = 0 := by
  have h := factory_not_validated_at_construction envU PyVal.none (PyVal.int 5)
    false [Op.forceOp, Op.getattrOp "x"] (Or.inl rfl) rfl rfl
  have h3 := h.2.2 (⟨PyVal.none, PyVal.none, PyVal.none, false⟩ : LazyInstance) rfl
  exact ⟨h.1 (PyVal.int 5), h.2.1 _ rfl, h3.1, h3.2⟩

/-- C2 (the code at the claim's input): on the unconstructed proxy sC,
_bind_method with the single method-name string run returns one deferred
caller whose captured accessor wraps the WHOLE one-element argument tuple,
not the name; creating it does not instantiate, but its first invocation
instantiates the proxy (one factory invocation) and then raises TypeError
from getattr(instance, (run,)) instead of calling the named method — even
though the instance's run member exists, is resolvable by name and is
callable, as the last two conjuncts show. -/
theorem bind_method_single_tuple_bug :
    LazyInstance._bind_method envC sC [PyVal.str "run"] =
      Except.ok (BindMethodResult.single (BindResult.deferred
        (Accessor.methodcallerGetattr (PyVal.tupleV [PyVal.str "run"])))) ∧
    invokeDeferred envC sC
      (Accessor.methodcallerGetattr (PyVal.tupleV [PyVal.str "run"])) [] =
      (Except.error (PyError.typeError "attribute name must be string"),
       (⟨PyVal.objV "C" [("run", PyVal.callableV 1)], PyVal.none, PyVal.none,
         false⟩ : LazyInstance), 1) ∧
    getattrVal (PyVal.objV "C" [("run", PyVal.callableV 1)]) (PyVal.str "run") =
      Except.ok (PyVal.callableV 1) ∧
    callPy envC (PyVal.callableV 1) [] = Except.ok (PyVal.tupleV []) :=
  ⟨rfl, rfl, rfl, rfl⟩

end AptSourcesCleanup
